import Mathlib

/-!
Shallow embedding of the deadline-tracking bot's core services
(services/deadline_service.py, services/notification_service.py,
db/models.py, scheduler.py) and proofs about the frozen claims.

Instants are modelled as integer seconds.  A Python `datetime` is a pair
of an instant and an awareness flag; "assume UTC if naive" keeps the
instant and sets the flag.  Database state is a record of lists mirroring
the four tables.  Fallible operations return `Except BotError`.
-/

namespace DeadlineBot

/-- Model of a Python datetime: an instant (seconds) plus a tzinfo-present flag. -/
structure DT where
  val : Int
  aware : Bool
deriving Repr, DecidableEq

/-- Model of `DeadlineService._ensure_aware`: if naive, assume UTC (instant kept). -/
def ensureAware (d : DT) : DT :=
  if d.aware then d else { d with aware := true }

/-- Row of the `deadlines` table (db/models.py, class Deadline). -/
structure Deadline where
  id : Nat
  user_id : Int
  title : String
  deadline_at : DT
deriving Repr, DecidableEq

/-- Row of the `users` table (db/models.py, class User). -/
structure User where
  id : Nat
  telegram_id : Int
  timezone : String
deriving Repr, DecidableEq

/-- Row of the `notification_settings` table (db/models.py, class
NotificationSettings); all six flags default to False. -/
structure NotificationSettings where
  user_id : Int
  notify_on_due : Bool := false
  notify_1_hour : Bool := false
  notify_3_hours : Bool := false
  notify_1_day : Bool := false
  notify_3_days : Bool := false
  notify_1_week : Bool := false
deriving Repr, DecidableEq

/-- Row of the `sent_notifications` table (db/models.py, class SentNotification). -/
structure SentNotification where
  id : Nat
  deadline_id : Nat
  notification_type : String
deriving Repr, DecidableEq

/-- The exception classes of exceptions.py that the services raise. -/
inductive BotError
  | databaseError (msg : String)
  | deadlineNotFound (deadline_id : Nat)
  | validationError (msg : String)
  | invalidTimezoneError (tz : String)
  | invalidDateError (s : String)
  | invalidDeadlineError (deadlineAt : Int)
  | notificationError (msg : String)
  | deadlineCreationError (msg : String)
  | deadlineUpdateError (msg : String)
  | deadlineDeletionError (msg : String)
deriving Repr, DecidableEq

/-- Python subclassing: InvalidTimezoneError, InvalidDateError and
InvalidDeadlineError all derive from ValidationError (exceptions.py). -/
def BotError.isValidationError : BotError → Bool
  | .validationError _ => true
  | .invalidTimezoneError _ => true
  | .invalidDateError _ => true
  | .invalidDeadlineError _ => true
  | _ => false

/-- The whole persistent store: one list per table, plus id counters. -/
structure DBState where
  deadlines : List Deadline := []
  users : List User := []
  settings : List NotificationSettings := []
  sent : List SentNotification := []
  nextDeadlineId : Nat := 1
  nextUserId : Nat := 1
  nextSentId : Nat := 1
deriving Repr, DecidableEq

/-- The five lead-time reminder kinds of the notification scan. -/
inductive Kind
  | one_week
  | three_days
  | one_day
  | three_hours
  | one_hour
deriving Repr, DecidableEq

/-- Lead time of each kind, in seconds (the `timedelta` literals of
`get_deadlines_for_notifications`). -/
def Kind.leadTime : Kind → Int
  | .one_week => 604800
  | .three_days => 259200
  | .one_day => 86400
  | .three_hours => 10800
  | .one_hour => 3600

/-- The settings flag consulted for each kind. -/
def Kind.flag (st : NotificationSettings) : Kind → Bool
  | .one_week => st.notify_1_week
  | .three_days => st.notify_3_days
  | .one_day => st.notify_1_day
  | .three_hours => st.notify_3_hours
  | .one_hour => st.notify_1_hour

/-- The `notification_checks` list of `get_deadlines_for_notifications`,
in source order: (enabled flag, timeframe in seconds, kind). -/
def notificationChecks (st : NotificationSettings) : List (Bool × Int × Kind) :=
  [(st.notify_1_week, 604800, .one_week),
   (st.notify_3_days, 259200, .three_days),
   (st.notify_1_day, 86400, .one_day),
   (st.notify_3_hours, 10800, .three_hours),
   (st.notify_1_hour, 3600, .one_hour)]

/-- The per-deadline loop body of `get_deadlines_for_notifications`:
a kind is reported as currently due when its flag is on and
`timeframe <= time_until < timeframe + timedelta(minutes=2)`.
(The subsequent `_was_sent` dedup is modelled separately.) -/
def dueKinds (st : NotificationSettings) (timeUntil : Int) : List Kind :=
  (notificationChecks st).filterMap fun c =>
    if c.1 && decide (c.2.1 ≤ timeUntil) && decide (timeUntil < c.2.1 + 120) then
      some c.2.2
    else
      none

/-- Model of utils/validation.py `validate_telegram_user` on the data the
services pass it (username and first_name None, is_bot False): the user id
must be a positive integer. -/
def validateTelegramUserId (uid : Int) : Bool :=
  0 < uid

/-- Lookup of a deadline row by primary key. -/
def findDeadline (s : DBState) (did : Nat) : Option Deadline :=
  s.deadlines.find? fun d => d.id == did

/-- Lookup of a user row by telegram_id. -/
def findUser (s : DBState) (tid : Int) : Option User :=
  s.users.find? fun u => u.telegram_id == tid

/-- Lookup of a settings row by user_id. -/
def findSettings (s : DBState) (uid : Int) : Option NotificationSettings :=
  s.settings.find? fun st => st.user_id == uid

/-- Model of Python `str.strip()`: drop whitespace from both ends.
Written over the character list so it evaluates in the kernel. -/
def pyStrip (s : String) : String :=
  .mk (((s.data.dropWhile Char.isWhitespace).reverse.dropWhile
    Char.isWhitespace).reverse)

/-- Model of `DeadlineService.create(user_id, title, dt)` with `now` the value
of `datetime.now(tz=timezone.utc)`: ensure dt aware, reject `dt < now` with
InvalidDeadlineError, then reject empty/whitespace title with
ValidationError, else persist the trimmed-title deadline. -/
def create (s : DBState) (user_id : Int) (title : String) (dt : DT) (now : Int) :
    Except BotError (Deadline × DBState) :=
  let dta := ensureAware dt
  if dta.val < now then
    .error (.invalidDeadlineError dta.val)
  else if pyStrip title = "" then
    .error (.validationError "Title cannot be empty")
  else
    let d : Deadline :=
      { id := s.nextDeadlineId, user_id := user_id,
        title := pyStrip title, deadline_at := dta }
    .ok (d, { s with deadlines := s.deadlines ++ [d],
                     nextDeadlineId := s.nextDeadlineId + 1 })

/-- Model of `DeadlineService.get_due`: selects deadlines with
`deadline_at <= datetime.now()`.  The source's `datetime.now()` is naive
local time, modelled as `now + localOffset` where `now` is the UTC instant
and `localOffset` the server's UTC offset.  No sent-marker condition appears
in the source query. -/
def get_due (s : DBState) (now : Int) (localOffset : Int) : List Deadline :=
  s.deadlines.filter fun d => d.deadline_at.val ≤ now + localOffset

/-- Body of `DeadlineService.delete` before its outer exception handlers:
validate the user id (ValidationError), look the row up (DeadlineNotFoundError
if absent), check ownership (ValidationError on mismatch), else delete. -/
def deleteInner (s : DBState) (did : Nat) (uid : Int) :
    Except BotError (Bool × DBState) :=
  if ¬ validateTelegramUserId uid then
    .error (.validationError "Invalid user ID")
  else
    match findDeadline s did with
    | none => .error (.deadlineNotFound did)
    | some d =>
      if d.user_id ≠ uid then
        .error (.validationError "You can only delete your own deadlines")
      else
        .ok (true, { s with deadlines := s.deadlines.filter fun x => x.id ≠ did })

/-- Model of `DeadlineService.delete`: its handlers re-raise
DeadlineNotFoundError and wrap every other exception (ValidationError
included) into DeadlineDeletionError. -/
def delete (s : DBState) (did : Nat) (uid : Int) :
    Except BotError (Bool × DBState) :=
  match deleteInner s did uid with
  | .ok r => .ok r
  | .error (.deadlineNotFound i) => .error (.deadlineNotFound i)
  | .error _ => .error (.deadlineDeletionError "Failed to delete deadline")

/-- Body of `DeadlineService.get_by_id` before its outer exception handler:
validate the user id, return None if absent, raise ValidationError if the
row belongs to a different user, else return it. -/
def getByIdInner (s : DBState) (did : Nat) (uid : Int) :
    Except BotError (Option Deadline) :=
  if ¬ validateTelegramUserId uid then
    .error (.validationError "Invalid user ID")
  else
    match findDeadline s did with
    | none => .ok none
    | some d =>
      if d.user_id ≠ uid then
        .error (.validationError "You can only access your own deadlines")
      else
        .ok (some d)

/-- Model of `DeadlineService.get_by_id`: its single handler wraps every
exception (the ownership ValidationError included) into DatabaseError. -/
def get_by_id (s : DBState) (did : Nat) (uid : Int) :
    Except BotError (Option Deadline) :=
  match getByIdInner s did uid with
  | .ok r => .ok r
  | .error _ => .error (.databaseError "Failed to get deadline")

/-- Model of `DeadlineService.edit_timezone`, parametric in the zone-name
resolvability check `isValidTz` (the source's `is_valid_timezone`, which asks
ZoneInfo): invalid zone raises InvalidTimezoneError before any store access;
otherwise the user row is created with, or updated to, the new zone. -/
def edit_timezone (isValidTz : String → Bool) (s : DBState) (tid : Int)
    (tz : String) : Except BotError (Bool × DBState) :=
  if ¬ isValidTz tz then
    .error (.invalidTimezoneError tz)
  else
    match findUser s tid with
    | none =>
      let u : User := { id := s.nextUserId, telegram_id := tid, timezone := tz }
      .ok (true, { s with users := s.users ++ [u], nextUserId := s.nextUserId + 1 })
    | some _ =>
      .ok (true, { s with users := s.users.map fun u =>
        if u.telegram_id == tid then { u with timezone := tz } else u })

/-- Model of `DeadlineService.get_timezone_for_user`: the stored timezone,
or "UTC" when no user row exists. -/
def get_timezone_for_user (s : DBState) (tid : Int) : String :=
  match findUser s tid with
  | none => "UTC"
  | some u => u.timezone

/-- Field update applied by `DeadlineService.update` to the found row:
title is set only when supplied and non-blank after trimming; the due
instant is set (made aware) whenever supplied. -/
def applyUpdate (d : Deadline) (title? : Option String) (dt? : Option DT) :
    Deadline :=
  let d1 :=
    match title? with
    | some t => if pyStrip t ≠ "" then { d with title := pyStrip t } else d
    | none => d
  match dt? with
  | some dtv => { d1 with deadline_at := ensureAware dtv }
  | none => d1

/-- Model of `DeadlineService.update(deadline_id, title, dt)` with `now` the
value of `datetime.now(tz=timezone.utc)`: a supplied blank title raises
ValidationError; a supplied past instant raises InvalidDeadlineError; an
absent row raises DeadlineNotFoundError; otherwise the supplied fields are
written and True returned. -/
def update (s : DBState) (did : Nat) (title? : Option String) (dt? : Option DT)
    (now : Int) : Except BotError (Bool × DBState) :=
  if (match title? with | some t => decide (pyStrip t = "") | none => false) then
    .error (.validationError "Title cannot be empty")
  else if (match dt? with
           | some d => decide ((ensureAware d).val < now)
           | none => false) then
    .error (.invalidDeadlineError (ensureAware (dt?.getD ⟨0, true⟩)).val)
  else
    match findDeadline s did with
    | none => .error (.deadlineNotFound did)
    | some _ =>
      .ok (true, { s with deadlines := s.deadlines.map fun d =>
        if d.id == did then applyUpdate d title? dt? else d })

/-- The `valid_fields` set of `NotificationService.update_settings`: only the
five lead-time flags, `notify_on_due` is not among them. -/
def settingsValidFields : List String :=
  ["notify_1_week", "notify_3_days", "notify_1_day", "notify_3_hours",
   "notify_1_hour"]

/-- The `setattr(settings, key, value)` step of `update_settings`; only keys
that passed the valid-fields check reach it, but the hasattr-guarded setattr
is total (unknown keys change nothing). -/
def setSettingsField (st : NotificationSettings) (kv : String × Bool) :
    NotificationSettings :=
  if kv.1 = "notify_1_week" then { st with notify_1_week := kv.2 }
  else if kv.1 = "notify_3_days" then { st with notify_3_days := kv.2 }
  else if kv.1 = "notify_1_day" then { st with notify_1_day := kv.2 }
  else if kv.1 = "notify_3_hours" then { st with notify_3_hours := kv.2 }
  else if kv.1 = "notify_1_hour" then { st with notify_1_hour := kv.2 }
  else if kv.1 = "notify_on_due" then { st with notify_on_due := kv.2 }
  else st

/-- Model of `NotificationService.update_settings(user_id, **kwargs)`:
any keyword outside `valid_fields` raises ValidationError before any store
access; otherwise the settings row is created with, or updated by, the
supplied flags. -/
def update_settings (s : DBState) (uid : Int) (kwargs : List (String × Bool)) :
    Except BotError (NotificationSettings × DBState) :=
  let invalid := (kwargs.map Prod.fst).filter fun k => ¬ settingsValidFields.contains k
  if invalid ≠ [] then
    .error (.validationError "Invalid fields")
  else
    match findSettings s uid with
    | none =>
      let st := kwargs.foldl setSettingsField { user_id := uid }
      .ok (st, { s with settings := s.settings ++ [st] })
    | some st =>
      let stNew := kwargs.foldl setSettingsField st
      .ok (stNew, { s with settings := s.settings.map fun x =>
        if x.user_id == uid then stNew else x })

/-- The ledger rows matching one (deadline id, notification type) pair,
the result set of the query inside `_was_sent`. -/
def matchingSent (s : DBState) (did : Nat) (ntype : String) :
    List SentNotification :=
  s.sent.filter fun r => r.deadline_id == did && r.notification_type == ntype

/-- SQLAlchemy `scalar_one_or_none`: None on zero rows, the row on one,
an exception on several. -/
def scalarOneOrNone (rows : List SentNotification) :
    Except String (Option SentNotification) :=
  match rows with
  | [] => .ok none
  | [r] => .ok (some r)
  | _ => .error "MultipleResultsFound"

/-- Body of `NotificationService._was_sent` as a function of the query's
outcome: on a successful query, existence via `scalar_one_or_none`; any
exception (query failure or multiple rows) is caught and True returned. -/
def wasSentCore (queryResult : Except String (List SentNotification)) : Bool :=
  match queryResult with
  | .error _ => true
  | .ok rows =>
    match scalarOneOrNone rows with
    | .error _ => true
    | .ok o => o.isSome

/-- Model of `NotificationService._was_sent` when the store is reachable. -/
def was_sent (s : DBState) (did : Nat) (ntype : String) : Bool :=
  wasSentCore (.ok (matchingSent s did ntype))

/-- Model of `NotificationService.mark_as_sent`: unconditionally inserts a
marker row (no prior existence check, no uniqueness constraint on the
table). -/
def mark_as_sent (s : DBState) (did : Nat) (ntype : String) : DBState :=
  { s with
    sent := s.sent ++
      [{ id := s.nextSentId, deadline_id := did, notification_type := ntype }],
    nextSentId := s.nextSentId + 1 }

/-- One reminder record produced by `get_deadlines_for_notifications` and
consumed by the upcoming tick. -/
structure NotifItem where
  deadline_id : Nat
  user_id : Int
  ntype : String
deriving Repr, DecidableEq

/-- The loop of `scheduler.check_deadlines` (the overdue tick), parametric in
whether the dispatch-and-mark step for a given deadline id succeeds.  The
source has no try/except around the loop body, so the first failure raises
out of the loop; the result is the ids processed before it and the id (if
any) whose failure escaped the tick. -/
def checkDeadlinesTick (sendOk : Nat → Bool) :
    List Deadline → List Nat × Option Nat
  | [] => ([], none)
  | d :: rest =>
    if sendOk d.id then
      let r := checkDeadlinesTick sendOk rest
      (d.id :: r.1, r.2)
    else
      ([], some d.id)

/-- The loop of `scheduler.check_upcoming_deadlines` (the upcoming tick):
each item's dispatch-and-mark step runs inside try/except, a failure is
logged and the loop continues; the result is (ids sent, ids whose failure
was logged). -/
def checkUpcomingTick (sendOk : Nat → Bool) :
    List NotifItem → List Nat × List Nat
  | [] => ([], [])
  | n :: rest =>
    let r := checkUpcomingTick sendOk rest
    if sendOk n.deadline_id then
      (n.deadline_id :: r.1, r.2)
    else
      (r.1, n.deadline_id :: r.2)

/-- A settings row with only the 1-hour flag enabled, for boundary checks. -/
def hourOnlySettings : NotificationSettings :=
  { user_id := 1, notify_1_hour := true }

/-- Claim C1: for every settings row and future time-until, a kind is reported as
currently due iff its flag is enabled and the time until the deadline lies in
the half-open two-minute window at its lead time; with notify_1_hour enabled,
a deadline due in 1 h + 1 s triggers the 1-hour kind while 1 h + 3 min and
59 min do not. -/
theorem policy_window_iff (st : NotificationSettings) (t : Int)
    (hfut : 0 < t) (k : Kind) :
    (k ∈ dueKinds st t ↔
      k.flag st = true ∧ k.leadTime ≤ t ∧ t < k.leadTime + 120) ∧
    Kind.one_hour ∈ dueKinds hourOnlySettings 3601 ∧
    Kind.one_hour ∉ dueKinds hourOnlySettings 3780 ∧
    Kind.one_hour ∉ dueKinds hourOnlySettings 3540 := by
  refine ⟨?_, by decide, by decide, by decide⟩
  cases k <;>
    simp [dueKinds, notificationChecks, Kind.flag, Kind.leadTime,
      List.mem_filterMap, and_assoc]

/-- Witness for policy_window_iff at t = 3601 with the 1-hour flag on. -/
theorem policy_window_iff_witness :
    (0:Int) < 3601 ∧
    (Kind.one_hour ∈ dueKinds hourOnlySettings 3601 ↔
      Kind.one_hour.flag hourOnlySettings = true ∧
      Kind.one_hour.leadTime ≤ (3601:Int) ∧
      (3601:Int) < Kind.one_hour.leadTime + 120) :=
  ⟨by decide, (policy_window_iff hourOnlySettings 3601 (by decide) Kind.one_hour).1⟩

/-- Helper: with a query result of at least two rows, `_was_sent` takes the
exception path of `scalar_one_or_none` and returns true. -/
theorem wasSentCore_append_two (xs : List SentNotification)
    (a b : SentNotification) : wasSentCore (.ok (xs ++ [a, b])) = true := by
  cases xs with
  | nil => rfl
  | cons x t => cases t <;> rfl

/-- Helper: with a successful query, `_was_sent` returns whether the result
set is nonempty (one row via `scalar_one_or_none`, several via its caught
MultipleResultsFound exception). -/
theorem wasSentCore_ok (rows : List SentNotification) :
    wasSentCore (.ok rows) = !rows.isEmpty := by
  match rows with
  | [] => rfl
  | [r] => rfl
  | a :: b :: t => rfl

/-- Helper: a filter is nonempty exactly when some element satisfies the
predicate. -/
theorem not_isEmpty_filter_eq_any (l : List SentNotification)
    (p : SentNotification → Bool) : (!(l.filter p).isEmpty) = l.any p := by
  induction l with
  | nil => rfl
  | cons a t ih => cases hp : p a <;> simp [List.filter_cons, hp, ← ih]

/-- Claim C6: after two successive `mark_as_sent(d, "1_hour")` calls, a
`_was_sent(d, "1_hour")` check returns true (the two inserted rows make
`scalar_one_or_none` raise, and the caught exception yields true). -/
theorem mark_sent_twice_was_sent (s : DBState) (did : Nat) :
    was_sent (mark_as_sent (mark_as_sent s did "1_hour") did "1_hour")
      did "1_hour" = true := by
  have key : matchingSent (mark_as_sent (mark_as_sent s did "1_hour") did "1_hour")
      did "1_hour" =
      matchingSent s did "1_hour" ++
        [{ id := s.nextSentId, deadline_id := did, notification_type := "1_hour" },
         { id := s.nextSentId + 1, deadline_id := did,
           notification_type := "1_hour" }] := by
    simp [mark_as_sent, matchingSent, List.filter_append]
  rw [was_sent, key, wasSentCore_append_two]

/-- Claim C7: `_was_sent` computes exactly the existence of a matching ledger row
when the store answers, and returns true on any internal failure of the
check. -/
theorem was_sent_existence_and_failsafe (s : DBState) (did : Nat)
    (ntype : String) (e : String) :
    was_sent s did ntype =
      s.sent.any (fun r => r.deadline_id == did && r.notification_type == ntype) ∧
    wasSentCore (.error e) = true := by
  refine ⟨?_, rfl⟩
  rw [was_sent, wasSentCore_ok, matchingSent, not_isEmpty_filter_eq_any]

/-- A store holding one overdue deadline that already carries the "overdue"
sent-marker. -/
def overdueMarkedState : DBState :=
  { deadlines := [{ id := 1, user_id := 5, title := "hw",
                    deadline_at := { val := 0, aware := true } }],
    sent := [{ id := 1, deadline_id := 1, notification_type := "overdue" }],
    nextDeadlineId := 2, nextSentId := 2 }

/-- Claim C2: the overdue fetch `DeadlineService.get_due` has no sent-marker
condition: a deadline already bearing the "overdue" marker is still
returned.  (The scheduler's overdue tick in fact calls
`get_due_unnotified`/`mark_overdue_notified`, methods that do not exist on
DeadlineService.) -/
theorem get_due_ignores_overdue_marker :
    was_sent overdueMarkedState 1 "overdue" = true ∧
    get_due overdueMarkedState 100 0 =
      [{ id := 1, user_id := 5, title := "hw",
         deadline_at := { val := 0, aware := true } }] := by
  exact ⟨by decide, by decide⟩

/-- Claim C9: `update_settings` rejects the model's sixth flag `notify_on_due`
with ValidationError; its `valid_fields` set holds only the five lead-time
flags, although the data model defines `notify_on_due` and the settings
keyboard offers a toggle for it. -/
theorem update_settings_rejects_notify_on_due :
    update_settings {} 1 [("notify_on_due", true)] =
      .error (.validationError "Invalid fields") ∧
    settingsValidFields.contains "notify_on_due" = false ∧
    ({ user_id := 1, notify_on_due := true } : NotificationSettings).notify_on_due
      = true := by
  exact ⟨rfl, by decide, rfl⟩

/-- Claim C10: an `update(deadline_id)` with both title and dt omitted succeeds on
an existing deadline, returns True, and leaves the store exactly as it was. -/
theorem update_noop (s : DBState) (did : Nat) (now : Int) (d : Deadline)
    (h : findDeadline s did = some d) :
    update s did none none now = .ok (true, s) := by
  have hmap : (s.deadlines.map fun x =>
      if x.id == did then applyUpdate x none none else x) = s.deadlines :=
    List.map_id'' (fun x => by simp [applyUpdate]) s.deadlines
  unfold update
  simp only [h, hmap]
  rfl

/-- A deadline row used in concrete witnesses. -/
def oneDeadlineRow : Deadline :=
  { id := 1, user_id := 5, title := "hw",
    deadline_at := { val := 500, aware := true } }

/-- A store holding a single deadline with id 1, for witnesses. -/
def oneDeadlineState : DBState :=
  { deadlines := [oneDeadlineRow], nextDeadlineId := 2 }

/-- Witness for update_noop on the one-deadline store. -/
theorem update_noop_witness :
    findDeadline oneDeadlineState 1 = some oneDeadlineRow ∧
    update oneDeadlineState 1 none none 100 = .ok (true, oneDeadlineState) :=
  ⟨by decide, update_noop oneDeadlineState 1 100 oneDeadlineRow (by decide)⟩

/-- Two overdue deadlines for the tick counterexample. -/
def tickDeadlineA : Deadline :=
  { id := 1, user_id := 5, title := "a",
    deadline_at := { val := 0, aware := true } }

/-- Second overdue deadline for the tick counterexample. -/
def tickDeadlineB : Deadline :=
  { id := 2, user_id := 6, title := "b",
    deadline_at := { val := 0, aware := true } }

/-- A dispatch outcome where only deadline 1 fails. -/
def sendFailsOn1 : Nat → Bool := fun i => i ≠ 1

/-- Claim C3 counterexample: in the overdue tick, a dispatch failure for the first
deadline escapes the loop (no try/except in `check_deadlines`): deadline 2 is
never processed and the exception leaves the tick. -/
theorem overdue_tick_failure_not_isolated :
    checkDeadlinesTick sendFailsOn1 [tickDeadlineA, tickDeadlineB] =
      ([], some 1) ∧
    (2:Nat) ∉ (checkDeadlinesTick sendFailsOn1 [tickDeadlineA, tickDeadlineB]).1 ∧
    (checkDeadlinesTick sendFailsOn1 [tickDeadlineA, tickDeadlineB]).2 ≠ none := by
  refine ⟨by decide, by decide, by decide⟩

/-- Claim C3 amended: the upcoming tick (`check_upcoming_deadlines`) isolates
per-item failures — every item is dispatched or its failure logged, in
either case the loop continues and nothing escapes the tick — while in the
overdue tick (`check_deadlines`) a failing item aborts the loop at once,
leaving the rest unprocessed. -/
theorem tick_failure_isolation (sendOk : Nat → Bool) (items : List NotifItem) :
    ((checkUpcomingTick sendOk items).1.length +
        (checkUpcomingTick sendOk items).2.length = items.length ∧
      ∀ n ∈ items, n.deadline_id ∈ (checkUpcomingTick sendOk items).1 ∨
        n.deadline_id ∈ (checkUpcomingTick sendOk items).2) ∧
    ∀ d rest, sendOk d.id = false →
      checkDeadlinesTick sendOk (d :: rest) = ([], some d.id) := by
  refine ⟨⟨?_, ?_⟩, ?_⟩
  · induction items with
    | nil => rfl
    | cons n rest ih =>
      cases hs : sendOk n.deadline_id <;>
        simp [checkUpcomingTick, hs] <;> omega
  · intro n hn
    induction items with
    | nil => simp at hn
    | cons m rest ih =>
      rcases List.mem_cons.mp hn with hEq | hMem
      · subst hEq
        cases hs : sendOk n.deadline_id <;> simp [checkUpcomingTick, hs]
      · have hrec := ih hMem
        cases hs : sendOk m.deadline_id
        · rcases hrec with h1 | h1
          · exact Or.inl (by simp [checkUpcomingTick, hs]; exact h1)
          · exact Or.inr (by simp [checkUpcomingTick, hs]; exact Or.inr h1)
        · rcases hrec with h1 | h1
          · exact Or.inl (by simp [checkUpcomingTick, hs]; exact Or.inr h1)
          · exact Or.inr (by simp [checkUpcomingTick, hs]; exact h1)
  · intro d rest h
    simp [checkDeadlinesTick, h]

/-- An upcoming-tick item for the witness. -/
def tickItemA : NotifItem := { deadline_id := 1, user_id := 5, ntype := "1_hour" }

/-- Witness for tick_failure_isolation at a concrete failing dispatch. -/
theorem tick_failure_isolation_witness :
    tickItemA ∈ [tickItemA] ∧
    sendFailsOn1 tickDeadlineA.id = false ∧
    (tickItemA.deadline_id ∈ (checkUpcomingTick sendFailsOn1 [tickItemA]).1 ∨
      tickItemA.deadline_id ∈ (checkUpcomingTick sendFailsOn1 [tickItemA]).2) ∧
    checkDeadlinesTick sendFailsOn1 (tickDeadlineA :: [tickDeadlineB]) =
      ([], some tickDeadlineA.id) := by
  refine ⟨by decide, by decide, ?_, ?_⟩
  · exact (tick_failure_isolation sendFailsOn1 [tickItemA]).1.2 tickItemA
      (by decide)
  · exact (tick_failure_isolation sendFailsOn1 []).2 tickDeadlineA [tickDeadlineB]
      (by decide)

/-- Claim C4 counterexample: a deadline due exactly at "now" is accepted by
`create` (the source rejects only `dt < now`, strictly), while the claim
requires every `due_at ≤ now` to fail. -/
theorem create_at_now_succeeds :
    (create {} 1 "task" { val := 1000, aware := true } 1000).isOk = true := by
  decide

/-- The deadline row `create` persists for a given input. -/
def createdRow (s : DBState) (uid : Int) (title : String) (dt : DT) : Deadline :=
  { id := s.nextDeadlineId, user_id := uid, title := pyStrip title,
    deadline_at := ensureAware dt }

/-- The store after a successful `create` for a given input. -/
def createdState (s : DBState) (uid : Int) (title : String) (dt : DT) : DBState :=
  { s with deadlines := s.deadlines ++ [createdRow s uid title dt],
           nextDeadlineId := s.nextDeadlineId + 1 }

/-- Claim C4 amended: `create` rejects due instants strictly before now with
InvalidDeadlineError (a due instant equal to now is accepted); a blank
title makes it fail with an exception of the ValidationError hierarchy
whatever the due instant (InvalidDeadlineError — itself a ValidationError
subclass — when the instant is also past, the plain ValidationError
otherwise); with a non-blank title and a due instant at or after now it
succeeds and returns the new deadline. -/
theorem create_validation (s : DBState) (uid : Int) (title : String)
    (dt : DT) (now : Int) :
    ((ensureAware dt).val < now →
      create s uid title dt now =
        .error (.invalidDeadlineError (ensureAware dt).val)) ∧
    (pyStrip title = "" →
      ∃ e, create s uid title dt now = .error e ∧
        e.isValidationError = true) ∧
    (pyStrip title ≠ "" → now ≤ (ensureAware dt).val →
      create s uid title dt now =
        .ok (createdRow s uid title dt, createdState s uid title dt)) := by
  refine ⟨?_, ?_, ?_⟩
  · intro h
    unfold create
    rw [if_pos h]
  · intro ht
    by_cases h : (ensureAware dt).val < now
    · exact ⟨.invalidDeadlineError (ensureAware dt).val,
        by unfold create; rw [if_pos h], rfl⟩
    · refine ⟨.validationError "Title cannot be empty", ?_, rfl⟩
      unfold create
      rw [if_neg h, if_pos ht]
  · intro ht hn
    unfold create
    rw [if_neg (not_lt.mpr hn), if_neg ht]
    rfl

/-- Witness for create_validation at a concrete past instant, blank title
and valid input. -/
theorem create_validation_witness :
    (ensureAware { val := 10, aware := true }).val < 1000 ∧
    create {} 1 "task" { val := 10, aware := true } 1000 =
      .error (.invalidDeadlineError 10) ∧
    (∃ e, create {} 1 "   " { val := 2000, aware := true } 1000 = .error e ∧
      e.isValidationError = true) ∧
    create {} 1 " task " { val := 2000, aware := false } 1000 =
      .ok ({ id := 1, user_id := 1, title := "task",
             deadline_at := { val := 2000, aware := true } },
           { deadlines := [{ id := 1, user_id := 1, title := "task",
                             deadline_at := { val := 2000, aware := true } }],
             nextDeadlineId := 2 }) := by
  refine ⟨by decide, ?_, ?_, ?_⟩
  · exact (create_validation {} 1 "task" { val := 10, aware := true } 1000).1
      (by decide)
  · exact (create_validation {} 1 "   " { val := 2000, aware := true } 1000).2.1
      (by decide)
  · exact (create_validation {} 1 " task " { val := 2000, aware := false }
      1000).2.2 (by decide) (by decide)

/-- The deadline row owned by user 2 used in the ownership scenario. -/
def otherOwnerRow : Deadline :=
  { id := 1, user_id := 2, title := "thesis",
    deadline_at := { val := 50, aware := true } }

/-- A store holding only a deadline owned by user 2. -/
def otherOwnerState : DBState :=
  { deadlines := [otherOwnerRow], nextDeadlineId := 2 }

/-- Claim C5 counterexample: user 1 deleting user 2's deadline gets a
DeadlineDeletionError, not a ValidationError — the ownership ValidationError
raised inside `delete` is swallowed by its blanket `except Exception`
handler and re-raised wrapped; `get_by_id` likewise wraps it into
DatabaseError.  Neither surviving exception is in the ValidationError
hierarchy. -/
theorem wrong_owner_error_is_wrapped :
    delete otherOwnerState 1 1 =
      .error (.deadlineDeletionError "Failed to delete deadline") ∧
    (BotError.deadlineDeletionError
      "Failed to delete deadline").isValidationError = false ∧
    get_by_id otherOwnerState 1 1 =
      .error (.databaseError "Failed to get deadline") ∧
    (BotError.databaseError "Failed to get deadline").isValidationError
      = false := by
  exact ⟨rfl, rfl, rfl, rfl⟩

/-- Claim C5 amended: on an owner mismatch, `delete` fails with
DeadlineDeletionError (the internal ownership ValidationError wrapped by its
outer handler) without touching the row, and `get_by_id` fails with
DatabaseError (same wrapping) instead of returning the other user's
deadline; a nonexistent id makes `delete` fail with DeadlineNotFoundError,
which its handler re-raises unwrapped, so the two failures stay
distinguishable. -/
theorem ownership_failures (s : DBState) (did did2 : Nat) (uidA : Int)
    (d : Deadline)
    (hval : validateTelegramUserId uidA = true)
    (hfind : findDeadline s did = some d)
    (hmism : d.user_id ≠ uidA)
    (hnone : findDeadline s did2 = none) :
    delete s did uidA =
      .error (.deadlineDeletionError "Failed to delete deadline") ∧
    get_by_id s did uidA = .error (.databaseError "Failed to get deadline") ∧
    delete s did2 uidA = .error (.deadlineNotFound did2) := by
  have hv : ¬ ¬ validateTelegramUserId uidA = true := not_not_intro hval
  have hinner : deleteInner s did uidA =
      .error (.validationError "You can only delete your own deadlines") := by
    unfold deleteInner
    rw [if_neg hv, hfind]
    exact if_pos hmism
  have hinner2 : getByIdInner s did uidA =
      .error (.validationError "You can only access your own deadlines") := by
    unfold getByIdInner
    rw [if_neg hv, hfind]
    exact if_pos hmism
  have hinner3 : deleteInner s did2 uidA = .error (.deadlineNotFound did2) := by
    unfold deleteInner
    rw [if_neg hv, hnone]
  refine ⟨?_, ?_, ?_⟩
  · unfold delete
    rw [hinner]
  · unfold get_by_id
    rw [hinner2]
  · unfold delete
    rw [hinner3]

/-- Witness for ownership_failures on the concrete two-user store. -/
theorem ownership_failures_witness :
    validateTelegramUserId 1 = true ∧
    findDeadline otherOwnerState 1 = some otherOwnerRow ∧
    otherOwnerRow.user_id ≠ 1 ∧
    findDeadline otherOwnerState 9 = none ∧
    (delete otherOwnerState 1 1 =
        .error (.deadlineDeletionError "Failed to delete deadline") ∧
      get_by_id otherOwnerState 1 1 =
        .error (.databaseError "Failed to get deadline") ∧
      delete otherOwnerState 9 1 = .error (.deadlineNotFound 9)) := by
  refine ⟨by decide, by decide, by decide, by decide,
    ownership_failures otherOwnerState 1 9 1 otherOwnerRow
      (by decide) (by decide) (by decide) (by decide)⟩

/-- Helper: a find? over a list extended on the right, when the front part
has no match, looks only at the extension. -/
theorem find_append_singleton (l : List User) (p : User → Bool) (u : User)
    (h : l.find? p = none) : (l ++ [u]).find? p = [u].find? p := by
  rw [List.find?_append, h]
  rfl

/-- Helper: rewriting the matched user's timezone keeps the row findable and
gives it the new zone. -/
theorem find_map_set_timezone (l : List User) (tid : Int) (tz : String)
    (u : User) (h : l.find? (fun v => v.telegram_id == tid) = some u) :
    (l.map fun v =>
      if v.telegram_id == tid then { v with timezone := tz } else v).find?
        (fun v => v.telegram_id == tid) = some { u with timezone := tz } := by
  induction l with
  | nil => simp at h
  | cons a t ih =>
    by_cases ha : (a.telegram_id == tid) = true
    · rw [List.find?_cons_of_pos t ha] at h
      rw [Option.some_inj] at h
      subst h
      rw [List.map_cons, List.find?_cons_of_pos]
      · simp [ha]
      · simp [ha]
    · rw [List.find?_cons_of_neg t ha] at h
      rw [List.map_cons, List.find?_cons_of_neg]
      · exact ih h
      · simp [ha]

/-- Claim C8: with a resolvable zone name, `edit_timezone` succeeds and a
subsequent `get_timezone_for_user` returns exactly that name (whether the
user row existed or not); with a non-resolvable name it fails with
InvalidTimezoneError before touching the store, so a later read still
sees the prior value; with no user row the read defaults to "UTC". -/
theorem timezone_roundtrip (vz : String → Bool) (s : DBState) (tid : Int)
    (tz : String) :
    (vz tz = true →
      ∃ sNew, edit_timezone vz s tid tz = .ok (true, sNew) ∧
        get_timezone_for_user sNew tid = tz) ∧
    (vz tz = false →
      edit_timezone vz s tid tz = .error (.invalidTimezoneError tz)) ∧
    (findUser s tid = none → get_timezone_for_user s tid = "UTC") := by
  refine ⟨?_, ?_, ?_⟩
  · intro hvz
    have hnv : ¬ ¬ vz tz = true := not_not_intro hvz
    unfold edit_timezone
    rw [if_neg hnv]
    cases hu : findUser s tid with
    | none =>
      refine ⟨_, rfl, ?_⟩
      unfold get_timezone_for_user findUser
      unfold findUser at hu
      rw [show (({ s with
            users := s.users ++
              [{ id := s.nextUserId, telegram_id := tid, timezone := tz }],
            nextUserId := s.nextUserId + 1 } : DBState).users) =
          s.users ++ [{ id := s.nextUserId, telegram_id := tid, timezone := tz }]
          from rfl,
        find_append_singleton _ _ _ hu]
      simp [List.find?]
    | some u =>
      refine ⟨_, rfl, ?_⟩
      unfold get_timezone_for_user findUser
      unfold findUser at hu
      rw [show (({ s with users := s.users.map fun v =>
            if v.telegram_id == tid then { v with timezone := tz } else v } :
              DBState).users) =
          (s.users.map fun v =>
            if v.telegram_id == tid then { v with timezone := tz } else v)
          from rfl,
        find_map_set_timezone _ _ _ _ hu]
  · intro hvz
    unfold edit_timezone
    rw [if_pos (by simp [hvz])]
  · intro h
    unfold get_timezone_for_user
    rw [h]

/-- A concrete zone-name resolvability check for the witness. -/
def mskOnly : String → Bool := fun z => z == "Europe/Moscow"

/-- Witness for timezone_roundtrip at a resolvable and a bogus zone name. -/
theorem timezone_roundtrip_witness :
    mskOnly "Europe/Moscow" = true ∧
    (∃ sNew, edit_timezone mskOnly {} 1 "Europe/Moscow" = .ok (true, sNew) ∧
      get_timezone_for_user sNew 1 = "Europe/Moscow") ∧
    mskOnly "Not/AZone" = false ∧
    edit_timezone mskOnly {} 1 "Not/AZone" =
      .error (.invalidTimezoneError "Not/AZone") := by
  refine ⟨by decide,
    (timezone_roundtrip mskOnly {} 1 "Europe/Moscow").1 (by decide),
    by decide,
    (timezone_roundtrip mskOnly {} 1 "Not/AZone").2.1 (by decide)⟩

end DeadlineBot
